import Mathlib

/-!
Shallow embedding of the Scalekit Vue SDK's session state machine and
token-lifecycle controller: the typed error taxonomy, the `AuthState`
reducer, the OIDC-user-to-Scalekit-user mapping, the auth-parameter
utilities, and the controller operations (`getAccessToken`, `logout`,
`handleRedirectCallback`, construction and initialization), each
translated from the TypeScript source.  The external `oidc-client-ts`
`UserManager` is modelled as an oracle recording the outcome of each of
its calls; JavaScript records are modelled as association lists with
unique keys; thrown errors become `Except` values.
-/

namespace ScalekitVue

/-- Typed error taxonomy of `src/types/errors` (ScalekitAuthError and its
seven concrete subclasses).  Each carries its message; subclasses that
accept a `cause` carry it; `jsError` stands for a plain JavaScript
`Error` (engine-thrown failures, `new Error(...)`). -/
inductive SkError where
  | loginError (message : String) (cause : Option SkError)
  | tokenRefreshError (message : String) (cause : Option SkError)
  | logoutError (message : String) (cause : Option SkError)
  | configurationError (message : String) (cause : Option SkError)
  | callbackError (message : String) (cause : Option SkError)
  | notInitializedError
  | notAuthenticatedError (message : String)
  | jsError (message : String)

/-- The `error instanceof NotAuthenticatedError` test. -/
def SkError.isNotAuthenticated : SkError → Bool
  | .notAuthenticatedError _ => true
  | _ => false

/-- Does the error belong to the TokenRefreshError class. -/
def SkError.isTokenRefresh : SkError → Bool
  | .tokenRefreshError _ _ => true
  | _ => false

/-- Does the error belong to the CallbackError class. -/
def SkError.isCallback : SkError → Bool
  | .callbackError _ _ => true
  | _ => false

/-- Does the error belong to the ConfigurationError class. -/
def SkError.isConfiguration : SkError → Bool
  | .configurationError _ _ => true
  | _ => false

/-- A JSON-ish claim value as found in an OIDC profile: the TypeScript
profile is `Record<string, unknown>`, so values are opaque; the shapes the
SDK actually reads are strings and string arrays. -/
inductive ClaimValue where
  | str (s : String)
  | strList (l : List String)
  | num (n : Int)
  | boolVal (b : Bool)
  | nullVal
deriving DecidableEq, Repr

/-- An OIDC profile object: association list from claim name to value,
keys unique as in any JavaScript object. -/
abbrev Profile := List (String × ClaimValue)

/-- JavaScript property read `profile[key]`: `undefined` (`none`) when the
key is absent. -/
def profileGet (p : Profile) (key : String) : Option ClaimValue :=
  (p.find? (fun kv => kv.1 = key)).map (·.2)

/-- ScalekitUserMetadata of `src/types/user`.  The source reads
`profile['org_id'] as string | undefined` etc.; the TypeScript `as` cast
performs no runtime conversion, so each field is the raw claim value. -/
structure ScalekitUserMetadata where
  organizationId : Option ClaimValue
  connectionId : Option ClaimValue
  identityProvider : Option ClaimValue
  roles : Option ClaimValue
  groups : Option ClaimValue
deriving DecidableEq, Repr

/-- ScalekitUser of `src/types/user`.  `expiresAt` models the JavaScript
`Date` by its millisecond timestamp. -/
structure ScalekitUser where
  profile : Profile
  metadata : ScalekitUserMetadata
  idToken : String
  accessToken : String
  expiresAt : Option Nat
  refreshToken : Option String
  scopes : List String
deriving DecidableEq, Repr

/-- JavaScript `s.split(sep)` for a single-character separator, on the
character list: splitting the empty string gives `[""]` and a trailing
separator yields a trailing empty piece, exactly as in JavaScript. -/
def jsSplitChars (sep : Char) : List Char → List (List Char)
  | [] => [[]]
  | c :: rest =>
      match jsSplitChars sep rest with
      | h :: t => if c = sep then [] :: h :: t else (c :: h) :: t
      | [] => if c = sep then [[], []] else [[c]]

/-- JavaScript `s.split(sep)` for a single-character separator. -/
def jsSplit (s : String) (sep : Char) : List String :=
  (jsSplitChars sep s.data).map String.mk

/-- The `oidc-client-ts` `User` shape consumed by the mapping step:
`profile`, optional `id_token`, `access_token`, optional `expires_at`
(seconds), optional `refresh_token`, optional `scope`, and the computed
`expired` flag the SDK branches on. -/
structure OidcUser where
  profile : Profile
  id_token : Option String
  access_token : String
  expires_at : Option Nat
  refresh_token : Option String
  scope : Option String
  expired : Bool
deriving DecidableEq, Repr

/-- mapOidcUserToScalekitUser of `src/types/user`:
`idToken: oidcUser.id_token || ''` (falsy `undefined`/`''` both give `''`),
`expiresAt: oidcUser.expires_at ? new Date(oidcUser.expires_at * 1000) :
undefined` (`0` is falsy), and
`scopes: oidcUser.scope?.split(' ') || []` (a defined scope always splits
to a non-empty, hence truthy, array). -/
def mapOidcUserToScalekitUser (oidcUser : OidcUser) : ScalekitUser :=
  { profile := oidcUser.profile
    metadata :=
      { organizationId := profileGet oidcUser.profile "org_id"
        connectionId := profileGet oidcUser.profile "connection_id"
        identityProvider := profileGet oidcUser.profile "idp"
        roles := profileGet oidcUser.profile "roles"
        groups := profileGet oidcUser.profile "groups" }
    idToken :=
      match oidcUser.id_token with
      | some s => if s = "" then "" else s
      | none => ""
    accessToken := oidcUser.access_token
    expiresAt :=
      match oidcUser.expires_at with
      | some n => if n = 0 then none else some (n * 1000)
      | none => none
    refreshToken := oidcUser.refresh_token
    scopes :=
      match oidcUser.scope with
      | some s => jsSplit s ' '
      | none => [] }

/-- AuthState of `src/types/auth-state`: the four variants of the tagged
union share this record shape (the variant is determined by the field
values). -/
structure AuthState where
  isLoading : Bool
  isAuthenticated : Bool
  user : Option ScalekitUser
  error : Option SkError

/-- initialAuthState of `src/types/auth-state`: the Initializing variant. -/
def initialAuthState : AuthState :=
  { isLoading := true, isAuthenticated := false, user := none, error := none }

/-- AuthAction of `src/types/auth-state`: the vocabulary of transition
requests.  `INITIALIZED` carries an optional user; `LOGIN_COMPLETED` and
`TOKEN_REFRESHED` carry a (non-null) user; `ERROR` carries an error. -/
inductive AuthAction where
  | initializing
  | initializedAction (user : Option ScalekitUser)
  | loginStarted
  | loginCompleted (user : ScalekitUser)
  | logoutCompleted
  | tokenRefreshed (user : ScalekitUser)
  | errored (error : SkError)

/-- authReducer of `src/types/auth-state`: the pure state transition
function (its `default` branch, returning the state unchanged, is
unreachable here because the action type is closed). -/
def authReducer (state : AuthState) (action : AuthAction) : AuthState :=
  match action with
  | .initializing =>
      { isLoading := true, isAuthenticated := false, user := none, error := none }
  | .initializedAction user =>
      match user with
      | some u =>
          { isLoading := false, isAuthenticated := true, user := some u, error := none }
      | none =>
          { isLoading := false, isAuthenticated := false, user := none, error := none }
  | .loginStarted =>
      { isLoading := true, isAuthenticated := false, user := none, error := none }
  | .loginCompleted user =>
      { isLoading := false, isAuthenticated := true, user := some user, error := none }
  | .logoutCompleted =>
      { isLoading := false, isAuthenticated := false, user := none, error := none }
  | .tokenRefreshed user =>
      { isLoading := false, isAuthenticated := true, user := some user, error := none }
  | .errored error =>
      { isLoading := false, isAuthenticated := false, user := none, error := some error }

/-- dispatch of `src/plugin` (the switch that mutates the reactive state):
modelled functionally, the mutated state being the return value.  The
`INITIALIZED` case branches on the truthiness of `action.user` exactly as
the reducer does; an unrecognized action type leaves the state unchanged,
which the closed action type makes unreachable. -/
def dispatch (state : AuthState) (action : AuthAction) : AuthState :=
  match action with
  | .initializing =>
      { state with isLoading := true, isAuthenticated := false, user := none, error := none }
  | .initializedAction user =>
      match user with
      | some u =>
          { state with isLoading := false, isAuthenticated := true, user := some u, error := none }
      | none =>
          { state with isLoading := false, isAuthenticated := false, user := none, error := none }
  | .loginStarted =>
      { state with isLoading := true, isAuthenticated := false, user := none, error := none }
  | .loginCompleted user =>
      { state with isLoading := false, isAuthenticated := true, user := some user, error := none }
  | .logoutCompleted =>
      { state with isLoading := false, isAuthenticated := false, user := none, error := none }
  | .tokenRefreshed user =>
      { state with isLoading := false, isAuthenticated := true, user := some user, error := none }
  | .errored error =>
      { state with isLoading := false, isAuthenticated := false, user := none, error := some error }

/-- Reachability: the states obtainable from the initial Initializing
state by any sequence of dispatched actions. -/
inductive ReachableAuthState : AuthState → Prop where
  | init : ReachableAuthState initialAuthState
  | step {s : AuthState} (a : AuthAction) :
      ReachableAuthState s → ReachableAuthState (authReducer s a)

/-! URL query parameters and the auth-params utilities of
`src/utils/auth-params.ts`.  A `URLSearchParams` value is an ordered list
of name/value pairs (duplicate names allowed); `delete` removes every
pair with the given name. -/

/-- The query-parameter list of a URL. -/
abbrev SearchParams := List (String × String)

/-- `params.has(name)`: some pair carries the name. -/
def hasParam : SearchParams → String → Bool
  | [], _ => false
  | p :: rest, name => p.1 = name || hasParam rest name

/-- `params.delete(name)`: removes every pair named `name`. -/
def deleteParam : SearchParams → String → SearchParams
  | [], _ => []
  | p :: rest, name =>
      if p.1 = name then deleteParam rest name else p :: deleteParam rest name

/-- hasAuthParams of `src/utils/auth-params.ts`: the query string carries
an authorization `code` or an `error`. -/
def hasAuthParams (search : SearchParams) : Bool :=
  hasParam search "code" || hasParam search "error"

/-- OIDC_PARAMS of `src/constants.ts`, in the order cleanupAuthParams
iterates over them. -/
def oidcParamsToRemove : List String :=
  ["code", "state", "error", "error_description", "session_state"]

/-- The body of the `paramsToRemove.forEach` loop in cleanupAuthParams:
if the parameter is present, delete it and set the `hasParams` flag. -/
def cleanupStep (acc : SearchParams × Bool) (param : String) : SearchParams × Bool :=
  if hasParam acc.1 param then (deleteParam acc.1 param, true) else acc

/-- cleanupAuthParams of `src/utils/auth-params.ts`: for each OIDC
redirect parameter present, delete it and note that something was
removed; `history.replaceState` runs only when the flag ended true.
Returns the resulting address's query parameters and whether the
history replacement was performed (when it was not, no parameter was
deleted, so the returned list is the original one). -/
def cleanupAuthParams (search : SearchParams) : SearchParams × Bool :=
  oidcParamsToRemove.foldl cleanupStep (search, false)

/-! JavaScript `Record<string, string>` objects: association lists whose
keys are unique (an object cannot hold a key twice). -/

/-- A `Record<string, string>`. -/
abbrev StringRecord := List (String × String)

/-- `record[key] = value`: overwrite the existing entry in place, else
append. -/
def recordSet : StringRecord → String → String → StringRecord
  | [], key, value => [(key, value)]
  | p :: rest, key, value =>
      if p.1 = key then (key, value) :: rest else p :: recordSet rest key value

/-- `record[key]` as an optional read (keys are unique, so the first
match is the only one). -/
def recordGet : StringRecord → String → Option String
  | [], _ => none
  | p :: rest, key => if p.1 = key then some p.2 else recordGet rest key

/-- `Object.assign(target, src)`: every own property of `src` is set on
`target`, in order. -/
def objectAssign (target src : StringRecord) : StringRecord :=
  src.foldl (fun acc p => recordSet acc p.1 p.2) target

/-- LoginWithRedirectOptions of `src/types/config`.  An optional string
field set to `""` is falsy in the source's `if (options.x)` guards. -/
structure LoginWithRedirectOptions where
  returnTo : Option String := none
  organizationId : Option String := none
  connectionId : Option String := none
  loginHint : Option String := none
  extraQueryParams : Option StringRecord := none

/-- buildScalekitParams of `src/utils/auth-params.ts`: the routing
parameters `organization_id`, `connection_id`, `login_hint` (each only
when its option is truthy), then `Object.assign` of the caller-supplied
extra parameters on top. -/
def buildScalekitParams (options : LoginWithRedirectOptions) : StringRecord :=
  let params : StringRecord := []
  let params :=
    match options.organizationId with
    | some s => if s.isEmpty then params else recordSet params "organization_id" s
    | none => params
  let params :=
    match options.connectionId with
    | some s => if s.isEmpty then params else recordSet params "connection_id" s
    | none => params
  let params :=
    match options.loginHint with
    | some s => if s.isEmpty then params else recordSet params "login_hint" s
    | none => params
  match options.extraQueryParams with
  | some extra => objectAssign params extra
  | none => params

/-! The external `oidc-client-ts` `UserManager`, modelled as an oracle
giving the outcome of each engine call an operation may make: a thrown
error, or the returned value. -/

/-- Outcomes of the engine calls the controller makes.  `getUser` reads
the persisted session from storage (no network); `signinSilent` is the
silent-renewal network call; `signinRedirectCallback` is the
code-for-tokens exchange; `signoutRedirect` starts the logout
navigation. -/
structure UserManagerOracle where
  getUserResult : Except SkError (Option OidcUser)
  signinSilentResult : Except SkError (Option OidcUser)
  signinRedirectCallbackResult : Except SkError OidcUser
  signoutRedirectResult : Except SkError Unit

/-- GetAccessTokenOptions of `src/types/config`. -/
structure GetAccessTokenOptions where
  scopes : Option (List String) := none
  forceRefresh : Option Bool := none

/-- The catch block of getAccessToken: a NotAuthenticatedError is
rethrown as-is, everything else is wrapped as a TokenRefreshError with
the original failure as cause. -/
def getAccessTokenCatch (error : SkError) : SkError :=
  if error.isNotAuthenticated then error
  else .tokenRefreshError "Failed to get access token" (some error)

/-- getAccessToken of `src/plugin`.  Returns the settled promise value
and whether `signinSilent` (the only network call) was invoked.  A null
`userManager` throws NotAuthenticatedError before the try block; inside
it, a null persisted session throws NotAuthenticatedError (default
message), an unexpired session with no `forceRefresh` returns its token
directly, and otherwise the silent renewal runs, a null renewal result
throwing TokenRefreshError; every throw inside the try passes through
`getAccessTokenCatch`. -/
def getAccessToken (userManager : Option UserManagerOracle)
    (options : GetAccessTokenOptions) : Except SkError String × Bool :=
  match userManager with
  | none => (.error (.notAuthenticatedError "UserManager not initialized"), false)
  | some um =>
    match um.getUserResult with
    | .error e => (.error (getAccessTokenCatch e), false)
    | .ok none =>
        (.error (getAccessTokenCatch (.notAuthenticatedError "User is not authenticated")),
          false)
    | .ok (some oidcUser) =>
      if options.forceRefresh.getD false || oidcUser.expired then
        match um.signinSilentResult with
        | .error e => (.error (getAccessTokenCatch e), true)
        | .ok none =>
            (.error (getAccessTokenCatch
              (.tokenRefreshError "Silent refresh returned no user" none)), true)
        | .ok (some renewed) => (.ok renewed.access_token, true)
      else (.ok oidcUser.access_token, false)

/-- LogoutOptions of `src/types/config`. -/
structure LogoutOptions where
  federated : Option Bool := none
  postLogoutRedirectUri : Option String := none
  state : Option String := none

/-- logout of `src/plugin`: asks the engine to `signoutRedirect`; on
success nothing is dispatched; on failure a LogoutError wrapping the
cause is dispatched as ERROR and thrown.  Returns the list of dispatched
actions and the settled promise value. -/
def logout (userManager : Option UserManagerOracle) (options : LogoutOptions) :
    List AuthAction × Except SkError Unit :=
  match userManager with
  | none => ([], .error (.logoutError "UserManager not initialized" none))
  | some um =>
    match um.signoutRedirectResult with
    | .ok _ => ([], .ok ())
    | .error e =>
        let logoutErr := SkError.logoutError "Logout failed" (some e)
        ([.errored logoutErr], .error logoutErr)

/-- What one run of handleRedirectCallback did: the state after it, the
actions it dispatched, whether it stripped the redirect parameters, and
its settled promise value. -/
structure CallbackRun where
  state : AuthState
  dispatched : List AuthAction
  cleanupCalled : Bool
  result : Except SkError ScalekitUser

/-- handleRedirectCallback of `src/plugin`: with no engine it throws a
CallbackError before the try block (no dispatch); otherwise it exchanges
the callback parameters, maps the user, dispatches LOGIN_COMPLETED and
strips the parameters; any failure of the exchange is wrapped as a
CallbackError, dispatched as ERROR and rethrown. -/
def handleRedirectCallback (userManager : Option UserManagerOracle)
    (state : AuthState) : CallbackRun :=
  match userManager with
  | none =>
      { state := state, dispatched := [], cleanupCalled := false
        result := .error (.callbackError "UserManager not initialized" none) }
  | some um =>
    match um.signinRedirectCallbackResult with
    | .ok oidcUser =>
        let scalekitUser := mapOidcUserToScalekitUser oidcUser
        { state := dispatch state (.loginCompleted scalekitUser)
          dispatched := [.loginCompleted scalekitUser]
          cleanupCalled := true
          result := .ok scalekitUser }
    | .error e =>
        let callbackErr :=
          SkError.callbackError "Failed to process authentication callback" (some e)
        { state := dispatch state (.errored callbackErr)
          dispatched := [.errored callbackErr]
          cleanupCalled := false
          result := .error callbackErr }

/-! The Event Bridge: the four listeners `initialize()` registers on the
engine's events, each translating a lifecycle notice into one dispatch. -/

/-- A lifecycle notice from the protocol engine. -/
inductive EngineNotice where
  | userLoaded (oidcUser : OidcUser)
  | userUnloaded
  | silentRenewFailed (error : SkError)
  | accessTokenExpired

/-- The listener registrations in `initialize()` (`src/plugin` lines
236-253): the action each notice dispatches, and whether the configured
error callback is additionally invoked. -/
def eventBridgeDispatch : EngineNotice → AuthAction × Bool
  | .userLoaded oidcUser =>
      (.tokenRefreshed (mapOidcUserToScalekitUser oidcUser), false)
  | .userUnloaded => (.logoutCompleted, false)
  | .silentRenewFailed e =>
      (.errored (.tokenRefreshError "Silent token renewal failed" (some e)), true)
  | .accessTokenExpired => (.logoutCompleted, false)

/-! Configuration, its validation, and construction/initialization
(`src/utils/user-manager-factory.ts` and `src/plugin`). -/

/-- StorageType of `src/types/config`. -/
inductive StorageType where
  | sessionStorage
  | localStorage
  | memory
deriving DecidableEq, Repr

/-- Does a string parse under the WHATWG `new URL(s)` constructor:
modelled as having a scheme — a leading alphabetic character followed by
alphanumerics, `+`, `-` or `.` — terminated by a colon.  (The constructor
the source calls accepts any such absolute URL and throws otherwise.) -/
def jsUrlParses (s : String) : Bool :=
  match s.splitOn ":" with
  | scheme :: _ :: _ =>
      (match scheme.data with
       | c :: rest => c.isAlpha && rest.all (fun d => d.isAlphanum || d = '+' || d = '-' || d = '.')
       | [] => false)
  | _ => false

/-- ScalekitAuthConfig of `src/types/config` as it reaches
`createUserManager`: the plugin destructures `onRedirectCallback`,
`onError` and `autoHandleCallback` out of the options first.  A required
string field holding `""` models a missing/falsy value (the source tests
`!config.x`). -/
structure ScalekitAuthConfig where
  environmentUrl : String
  clientId : String
  redirectUri : String
  scopes : Option String := none
  postLogoutRedirectUri : Option String := none
  storage : Option StorageType := none
  automaticSilentRenew : Option Bool := none

/-- validateConfig of `src/utils/user-manager-factory.ts`: required
fields present, then each URL field parses; the post-logout URI is only
checked when truthy. -/
def validateConfig (config : ScalekitAuthConfig) : Except SkError Unit :=
  if config.environmentUrl.isEmpty then
    .error (.configurationError "environmentUrl is required" none)
  else if config.clientId.isEmpty then
    .error (.configurationError "clientId is required" none)
  else if config.redirectUri.isEmpty then
    .error (.configurationError "redirectUri is required" none)
  else if !jsUrlParses config.environmentUrl then
    .error (.configurationError ("Invalid environmentUrl: " ++ config.environmentUrl) none)
  else if !jsUrlParses config.redirectUri then
    .error (.configurationError ("Invalid redirectUri URL: " ++ config.redirectUri) none)
  else
    match config.postLogoutRedirectUri with
    | some uri =>
        if !uri.isEmpty && !jsUrlParses uri then
          .error (.configurationError ("Invalid postLogoutRedirectUri URL: " ++ uri) none)
        else .ok ()
    | none => .ok ()

/-- createUserManager of `src/utils/user-manager-factory.ts`:
`validateConfig` throws on invalid configuration; the rest
(`mapConfigToSettings`, `new UserManager(settings)`) is pure settings
construction and performs no network call, so success is modelled by
`.ok` — the engine's behavior is the oracle's. -/
def createUserManager (config : ScalekitAuthConfig) : Except SkError Unit :=
  validateConfig config

/-- ScalekitAuthPluginOptions of `src/types/config`: the configuration
plus the plugin-only fields the constructor destructures off
(`autoHandleCallback` defaulting to true; the two optional callbacks are
modelled by the effect trace recording their call sites). -/
structure ScalekitAuthPluginOptions extends ScalekitAuthConfig where
  autoHandleCallback : Option Bool := none

/-- The environment `initialize()` runs against: the engine the factory
would produce, and whether the current navigation context carries
redirect parameters (`hasAuthParams()`). -/
structure InitEnv where
  engine : UserManagerOracle
  authParamsPresent : Bool

/-- An observable step taken during `initialize()`. -/
inductive InitEffect where
  | engineCreated
  | listenersRegistered
  | exchangeCodeForTokens
  | storageGetUser
  | dispatched (action : AuthAction)
  | cleanupCalled
  | onRedirectCallbackCall
  | onErrorCall (error : SkError)

/-- What one run of the async `initialize()` did: the state it left, and
whether `userManager` was assigned, the ordered effects, and how its
(unawaited) promise settled. -/
structure InitRun where
  state : AuthState
  userManagerSet : Bool
  effects : List InitEffect
  outcome : Except SkError Unit

/-- The async `initialize()` of `src/plugin`.  `userManager =
createUserManager(config)` stands before the try block: a validation
throw rejects the promise with nothing dispatched, no listener
registered, no engine and no network call.  Otherwise the four listeners
are registered, then either the redirect callback is handled (success
invoking the configured redirect callback; its CallbackError being
re-dispatched as ERROR with the error callback invoked when it fails) or
the persisted session is read and INITIALIZED dispatched; a failure of
that read dispatches ERROR and invokes the error callback.  The catch
swallows every in-try failure, so only the validation throw rejects. -/
def initAuth (options : ScalekitAuthPluginOptions) (env : InitEnv) : InitRun :=
  match createUserManager options.toScalekitAuthConfig with
  | .error e =>
      { state := initialAuthState, userManagerSet := false, effects := []
        outcome := .error e }
  | .ok _ =>
    let pre : List InitEffect := [.engineCreated, .listenersRegistered]
    if options.autoHandleCallback.getD true && env.authParamsPresent then
      let run := handleRedirectCallback (some env.engine) initialAuthState
      match run.result with
      | .ok _ =>
          { state := run.state
            userManagerSet := true
            effects := pre ++ [.exchangeCodeForTokens]
              ++ run.dispatched.map .dispatched
              ++ (if run.cleanupCalled then [.cleanupCalled] else [])
              ++ [.onRedirectCallbackCall]
            outcome := .ok () }
      | .error e =>
          { state := dispatch run.state (.errored e)
            userManagerSet := true
            effects := pre ++ [.exchangeCodeForTokens]
              ++ run.dispatched.map .dispatched
              ++ [.dispatched (.errored e), .onErrorCall e]
            outcome := .ok () }
    else
      match env.engine.getUserResult with
      | .ok (some oidcUser) =>
          if !oidcUser.expired then
            let u := mapOidcUserToScalekitUser oidcUser
            { state := dispatch initialAuthState (.initializedAction (some u))
              userManagerSet := true
              effects := pre ++ [.storageGetUser, .dispatched (.initializedAction (some u))]
              outcome := .ok () }
          else
            { state := dispatch initialAuthState (.initializedAction none)
              userManagerSet := true
              effects := pre ++ [.storageGetUser, .dispatched (.initializedAction none)]
              outcome := .ok () }
      | .ok none =>
          { state := dispatch initialAuthState (.initializedAction none)
            userManagerSet := true
            effects := pre ++ [.storageGetUser, .dispatched (.initializedAction none)]
            outcome := .ok () }
      | .error e =>
          { state := dispatch initialAuthState (.errored e)
            userManagerSet := true
            effects := pre ++ [.storageGetUser, .dispatched (.errored e), .onErrorCall e]
            outcome := .ok () }

/-- createScalekitAuth of `src/plugin`.  Its synchronous body —
destructure the options, create the reactive state, define the methods,
call the unawaited async `initialize()`, return the instance — contains
no throw, so the construction call always returns the instance (`.ok`);
a failure inside `initialize` only rejects that internal promise,
recorded in the run's `outcome`. -/
def createScalekitAuth (options : ScalekitAuthPluginOptions) (env : InitEnv) :
    Except SkError InitRun :=
  .ok (initAuth options env)

/-- Is the effect a network call: the code-for-tokens exchange or a
silent renewal (the persisted-session read is a storage access). -/
def InitEffect.isNetworkCall : InitEffect → Bool
  | .exchangeCodeForTokens => true
  | _ => false

/-! Concrete fixtures used by the witness theorems. -/

/-- An engine oracle with no persisted session whose exchange and logout
calls fail with engine-level errors. -/
def oracleNoSession : UserManagerOracle :=
  { getUserResult := .ok none
    signinSilentResult := .ok none
    signinRedirectCallbackResult := .error (.jsError "invalid_grant")
    signoutRedirectResult := .error (.jsError "network unreachable") }

/-- A concrete, unexpired engine session. -/
def sampleOidcUser : OidcUser :=
  { profile := [("sub", .str "usr_123"), ("email", .str "jo@example.com")]
    id_token := some "idtok"
    access_token := "atok"
    expires_at := some 1700000000
    refresh_token := none
    scope := some "openid profile"
    expired := false }

/-- An engine oracle holding `sampleOidcUser` whose calls all succeed. -/
def oracleWithSession : UserManagerOracle :=
  { getUserResult := .ok (some sampleOidcUser)
    signinSilentResult := .ok (some sampleOidcUser)
    signinRedirectCallbackResult := .ok sampleOidcUser
    signoutRedirectResult := .ok () }

/-- An initialization environment with no redirect parameters pending. -/
def sampleEnv : InitEnv :=
  { engine := oracleNoSession, authParamsPresent := false }

/-- Plugin options whose `clientId` is missing (falsy) while the other
required fields are well-formed. -/
def missingClientIdOptions : ScalekitAuthPluginOptions :=
  { environmentUrl := "https://tenant.scalekit.cloud"
    clientId := ""
    redirectUri := "https://app.example.com/callback" }

/-! Theorems settling the claims. -/

/-! Helper lemmas about parameter deletion and the cleanup fold. -/

/-- Deleting a parameter removes every occurrence of it. -/
theorem hasParam_deleteParam_self (s : SearchParams) (p : String) :
    hasParam (deleteParam s p) p = false := by
  induction s with
  | nil => rfl
  | cons r rest ih =>
      by_cases h : r.1 = p
      · simp [deleteParam, h, ih]
      · simp [deleteParam, hasParam, h, ih]

/-- Deleting one parameter never makes another appear. -/
theorem hasParam_deleteParam_of_absent (s : SearchParams) (p q : String)
    (h : hasParam s q = false) : hasParam (deleteParam s p) q = false := by
  induction s with
  | nil => rfl
  | cons r rest ih =>
      simp only [hasParam, Bool.or_eq_false_iff, decide_eq_false_iff_not] at h
      by_cases hr : r.1 = p
      · simp [deleteParam, hr, ih h.2]
      · simp [deleteParam, hasParam, hr, h.1, ih h.2]

/-- A parameter absent before the cleanup fold is absent after it. -/
theorem cleanupFold_absent (L : List String) (q : String) :
    ∀ acc : SearchParams × Bool, hasParam acc.1 q = false →
      hasParam (L.foldl cleanupStep acc).1 q = false := by
  induction L with
  | nil =>
      intro acc h
      exact h
  | cons param L' ih =>
      intro acc h
      rw [List.foldl_cons]
      apply ih
      cases hp : hasParam acc.1 param with
      | true =>
          simp only [cleanupStep, hp, if_true]
          exact hasParam_deleteParam_of_absent acc.1 param q h
      | false =>
          simp [cleanupStep, hp, h]

/-- Every parameter of the fold's list is absent after the fold. -/
theorem cleanupFold_removes (L : List String) (q : String) (hq : q ∈ L) :
    ∀ acc : SearchParams × Bool,
      hasParam (L.foldl cleanupStep acc).1 q = false := by
  induction L with
  | nil => cases hq
  | cons param L' ih =>
      intro acc
      rw [List.foldl_cons]
      rcases List.mem_cons.mp hq with hq1 | hq2
      · subst hq1
        apply cleanupFold_absent
        cases hp : hasParam acc.1 q with
        | true =>
            simp only [cleanupStep, hp, if_true]
            exact hasParam_deleteParam_self acc.1 q
        | false =>
            simp [cleanupStep, hp]
      · exact ih hq2 _

/-- When none of the fold's parameters is present, the fold is the
identity: nothing is deleted and the flag stays as given. -/
theorem cleanupFold_noop (L : List String) (s : SearchParams) (b : Bool)
    (h : ∀ q ∈ L, hasParam s q = false) :
    L.foldl cleanupStep (s, b) = (s, b) := by
  induction L with
  | nil => rfl
  | cons param L' ih =>
      have hstep : cleanupStep (s, b) param = (s, b) := by
        unfold cleanupStep
        simp [h param (List.mem_cons_self param L')]
      rw [List.foldl_cons, hstep]
      exact ih (fun q hq => h q (List.mem_cons_of_mem param hq))

/-- A name carried by no pair of the list is not a parameter of it. -/
theorem hasParam_eq_false_of_keys (s : SearchParams) (q : String)
    (h : ∀ p ∈ s, p.1 ≠ q) : hasParam s q = false := by
  induction s with
  | nil => rfl
  | cons r rest ih =>
      simp [hasParam, h r (List.mem_cons_self r rest),
        ih (fun p hp => h p (List.mem_cons_of_mem r hp))]

/-! Helper lemmas about record updates and `Object.assign`. -/

/-- Setting a key makes the record hold its value. -/
theorem recordGet_recordSet_self (r : StringRecord) (k v : String) :
    recordGet (recordSet r k v) k = some v := by
  induction r with
  | nil => simp [recordSet, recordGet]
  | cons p rest ih =>
      by_cases h : p.1 = k
      · simp [recordSet, recordGet, h]
      · simp [recordSet, recordGet, h, ih]

/-- Setting a key leaves every other key's value unchanged. -/
theorem recordGet_recordSet_ne (r : StringRecord) (k v k' : String) (h : k' ≠ k) :
    recordGet (recordSet r k v) k' = recordGet r k' := by
  induction r with
  | nil => simp [recordSet, recordGet, Ne.symm h]
  | cons p rest ih =>
      by_cases hp : p.1 = k
      · simp [recordSet, recordGet, hp, Ne.symm h]
      · by_cases hp' : p.1 = k'
        · simp [recordSet, recordGet, hp, hp', h]
        · simp [recordSet, recordGet, hp, hp', ih]

/-- Unfolding `Object.assign` one source property at a time. -/
theorem objectAssign_cons (t : StringRecord) (p : String × String)
    (rest : StringRecord) :
    objectAssign t (p :: rest) = objectAssign (recordSet t p.1 p.2) rest := rfl

/-- Assigning a record that never mentions a key leaves that key's value
unchanged. -/
theorem recordGet_objectAssign_absent (src : StringRecord) (k : String) :
    ∀ t : StringRecord, (∀ p ∈ src, p.1 ≠ k) →
      recordGet (objectAssign t src) k = recordGet t k := by
  induction src with
  | nil =>
      intro t _
      rfl
  | cons p rest ih =>
      intro t h
      rw [objectAssign_cons, ih (recordSet t p.1 p.2)
        (fun q hq => h q (List.mem_cons_of_mem p hq))]
      exact recordGet_recordSet_ne t p.1 p.2 k
        (Ne.symm (h p (List.mem_cons_self p rest)))

/-- Assigning a duplicate-free record installs each of its bindings. -/
theorem recordGet_objectAssign_of_mem (src : StringRecord) (k v : String) :
    ∀ t : StringRecord, (src.map Prod.fst).Nodup → recordGet src k = some v →
      recordGet (objectAssign t src) k = some v := by
  induction src with
  | nil =>
      intro t _ hv
      cases hv
  | cons p rest ih =>
      intro t hnodup hv
      rw [objectAssign_cons]
      by_cases hp : p.1 = k
      · have hvv : p.2 = v := by
          rw [recordGet, if_pos hp] at hv
          exact Option.some.inj hv
        have habsent : ∀ q ∈ rest, q.1 ≠ k := by
          intro q hq hqk
          exact (List.nodup_cons.mp hnodup).1
            (hp ▸ hqk ▸ List.mem_map_of_mem Prod.fst hq)
        rw [recordGet_objectAssign_absent rest k (recordSet t p.1 p.2) habsent, hp,
          recordGet_recordSet_self, hvv]
      · rw [recordGet, if_neg hp] at hv
        exact ih (recordSet t p.1 p.2) (List.nodup_cons.mp hnodup).2 hv

/-- C1: for every AuthState reachable from the initial Initializing state
by any sequence of reducer/dispatch actions, `isAuthenticated` is true
iff `user` is non-null and `error` is null, and a non-null `error` occurs
only in the Errored variant (`isAuthenticated` false, `user` null); the
plugin's `dispatch` performs exactly the reducer's transition. -/
theorem authReducer_reachable_invariant (s : AuthState) (h : ReachableAuthState s) :
    (s.isAuthenticated = true ↔ s.user ≠ none ∧ s.error = none) ∧
      (s.error ≠ none → s.isAuthenticated = false ∧ s.user = none) ∧
      (∀ (st : AuthState) (a : AuthAction), dispatch st a = authReducer st a) := by
  have hdisp : ∀ (st : AuthState) (a : AuthAction), dispatch st a = authReducer st a := by
    intro st a
    cases a with
    | initializing => rfl
    | initializedAction user => cases user <;> rfl
    | loginStarted => rfl
    | loginCompleted u => rfl
    | logoutCompleted => rfl
    | tokenRefreshed u => rfl
    | errored e => rfl
  refine ⟨?_, ?_, hdisp⟩ <;>
    induction h with
    | init => simp [initialAuthState]
    | step a hs ih =>
        cases a with
        | initializing => simp [authReducer]
        | initializedAction user => cases user <;> simp [authReducer]
        | loginStarted => simp [authReducer]
        | loginCompleted u => simp [authReducer]
        | logoutCompleted => simp [authReducer]
        | tokenRefreshed u => simp [authReducer]
        | errored e => simp [authReducer]

/-- Witness for C1: the invariant instantiated at the state reached by
dispatching an ERROR action from the initial state. -/
theorem authReducer_reachable_invariant_witness :
    ((authReducer initialAuthState (.errored (.jsError "boom"))).isAuthenticated = true ↔
        (authReducer initialAuthState (.errored (.jsError "boom"))).user ≠ none ∧
          (authReducer initialAuthState (.errored (.jsError "boom"))).error = none) ∧
      ((authReducer initialAuthState (.errored (.jsError "boom"))).error ≠ none →
        (authReducer initialAuthState (.errored (.jsError "boom"))).isAuthenticated = false ∧
          (authReducer initialAuthState (.errored (.jsError "boom"))).user = none) ∧
      (∀ (st : AuthState) (a : AuthAction), dispatch st a = authReducer st a) :=
  authReducer_reachable_invariant _
    (ReachableAuthState.step (.errored (.jsError "boom")) ReachableAuthState.init)

/-- C4: when a persisted session exists, is unexpired, and forceRefresh
was not requested, getAccessToken returns that session's access token
and performs no silent renewal (the flag recording a `signinSilent`
network call is false). -/
theorem getAccessToken_unexpired_no_refresh (um : UserManagerOracle)
    (options : GetAccessTokenOptions) (oidcUser : OidcUser)
    (hsession : um.getUserResult = .ok (some oidcUser))
    (hfresh : oidcUser.expired = false)
    (hforce : options.forceRefresh.getD false = false) :
    getAccessToken (some um) options = (.ok oidcUser.access_token, false) := by
  simp [getAccessToken, hsession, hfresh, hforce]

/-- Witness for C4: a concrete oracle holding an unexpired session and
default options. -/
theorem getAccessToken_unexpired_no_refresh_witness :
    oracleWithSession.getUserResult = .ok (some sampleOidcUser) ∧
      sampleOidcUser.expired = false ∧
      ({} : GetAccessTokenOptions).forceRefresh.getD false = false ∧
      getAccessToken (some oracleWithSession) {} = (.ok "atok", false) :=
  ⟨rfl, rfl, rfl, getAccessToken_unexpired_no_refresh oracleWithSession {} sampleOidcUser rfl rfl rfl⟩

/-- C7: mapping an engine session whose scope is `"openid profile"`
yields scopes `["openid", "profile"]`; mapping one with no scope yields
an empty scope list. -/
theorem mapOidcUser_scopes_roundtrip (oidcUser1 oidcUser2 : OidcUser)
    (h1 : oidcUser1.scope = some "openid profile")
    (h2 : oidcUser2.scope = none) :
    (mapOidcUserToScalekitUser oidcUser1).scopes = ["openid", "profile"] ∧
      (mapOidcUserToScalekitUser oidcUser2).scopes = [] := by
  constructor
  · simp only [mapOidcUserToScalekitUser, h1]
    decide
  · simp only [mapOidcUserToScalekitUser, h2]

/-- Witness for C7: the mapping evaluated at `sampleOidcUser` (scope
`"openid profile"`) and at the same session with the scope removed. -/
theorem mapOidcUser_scopes_roundtrip_witness :
    sampleOidcUser.scope = some "openid profile" ∧
      (mapOidcUserToScalekitUser sampleOidcUser).scopes = ["openid", "profile"] ∧
      (mapOidcUserToScalekitUser { sampleOidcUser with scope := none }).scopes = [] :=
  ⟨rfl,
    (mapOidcUser_scopes_roundtrip sampleOidcUser { sampleOidcUser with scope := none }
      rfl rfl).1,
    (mapOidcUser_scopes_roundtrip sampleOidcUser { sampleOidcUser with scope := none }
      rfl rfl).2⟩

/-- C10: whenever the engine session's `id_token` is absent or the empty
string, the mapped user's `idToken` is the empty string (the field is a
total `String`, never null). -/
theorem mapOidcUser_idToken_default (oidcUser : OidcUser)
    (h : oidcUser.id_token = none ∨ oidcUser.id_token = some "") :
    (mapOidcUserToScalekitUser oidcUser).idToken = "" := by
  rcases h with h | h <;> simp [mapOidcUserToScalekitUser, h]

/-- Witness for C10: the mapping evaluated with the `id_token` field
removed from the sample session. -/
theorem mapOidcUser_idToken_default_witness :
    ({ sampleOidcUser with id_token := none } : OidcUser).id_token = none ∧
      (mapOidcUserToScalekitUser { sampleOidcUser with id_token := none }).idToken = "" :=
  ⟨rfl, mapOidcUser_idToken_default { sampleOidcUser with id_token := none } (Or.inl rfl)⟩

/-- C6: the callback consumption step is idempotent — running
cleanupAuthParams on an already-cleaned address returns that address
unchanged and performs no history replacement — and a run that finds
none of the five OIDC redirect parameters performs no history
replacement at all (and deletes nothing). -/
theorem cleanupAuthParams_idempotent (search : SearchParams) :
    cleanupAuthParams (cleanupAuthParams search).1 =
        ((cleanupAuthParams search).1, false) ∧
      ((∀ p ∈ search, p.1 ∉ oidcParamsToRemove) →
        cleanupAuthParams search = (search, false)) := by
  constructor
  · have habs : ∀ q ∈ oidcParamsToRemove,
        hasParam (cleanupAuthParams search).1 q = false :=
      fun q hq => cleanupFold_removes oidcParamsToRemove q hq (search, false)
    exact cleanupFold_noop oidcParamsToRemove (cleanupAuthParams search).1 false habs
  · intro h
    apply cleanupFold_noop
    intro q hq
    apply hasParam_eq_false_of_keys
    intro p hp hpq
    exact h p hp (hpq ▸ hq)

/-- Witness for C6: a query string with no OIDC redirect parameter is
returned unchanged with no history replacement. -/
theorem cleanupAuthParams_idempotent_witness :
    (∀ p ∈ ([("foo", "1")] : SearchParams), p.1 ∉ oidcParamsToRemove) ∧
      cleanupAuthParams [("foo", "1")] = ([("foo", "1")], false) :=
  ⟨by decide, (cleanupAuthParams_idempotent [("foo", "1")]).2 (by decide)⟩

/-- C8: the caller-supplied passthrough parameters are shallow-merged
over the routing parameters: any key the extra parameters bind ends up
bound to the caller-supplied value in the built parameter record (in
particular every key present in both). -/
theorem buildScalekitParams_extra_wins (options : LoginWithRedirectOptions)
    (extra : StringRecord) (k v : String)
    (hextra : options.extraQueryParams = some extra)
    (hnodup : (extra.map Prod.fst).Nodup)
    (hcaller : recordGet extra k = some v) :
    recordGet (buildScalekitParams options) k = some v := by
  simp only [buildScalekitParams, hextra]
  exact recordGet_objectAssign_of_mem extra k v _ hnodup hcaller

/-- Witness for C8: `organization_id` is produced by the routing options
and also supplied by the caller; the built record holds the caller's
value. -/
theorem buildScalekitParams_extra_wins_witness :
    ({ organizationId := some "org_123"
       extraQueryParams := some [("organization_id", "org_override")] } :
        LoginWithRedirectOptions).extraQueryParams =
          some [("organization_id", "org_override")] ∧
      recordGet (buildScalekitParams
        { organizationId := some "org_123"
          extraQueryParams := some [("organization_id", "org_override")] })
        "organization_id" = some "org_override" :=
  ⟨rfl,
    buildScalekitParams_extra_wins
      { organizationId := some "org_123"
        extraQueryParams := some [("organization_id", "org_override")] }
      [("organization_id", "org_override")] "organization_id" "org_override"
      rfl (by decide) rfl⟩

/-- C3: with no persisted session getAccessToken fails with the (exact,
unwrapped) NotAuthenticatedError and makes no network call; the catch
block passes a NotAuthenticatedError through unchanged and wraps every
other failure as a TokenRefreshError; consequently every error
getAccessToken surfaces is a Not-Authenticated or a Token-Refresh
error. -/
theorem getAccessToken_error_taxonomy
    (userManager : Option UserManagerOracle) (options : GetAccessTokenOptions)
    (um : UserManagerOracle) :
    (um.getUserResult = .ok none →
        getAccessToken (some um) options =
          (.error (.notAuthenticatedError "User is not authenticated"), false)) ∧
      (∀ e : SkError, e.isNotAuthenticated = true → getAccessTokenCatch e = e) ∧
      (∀ e : SkError, e.isNotAuthenticated = false →
        getAccessTokenCatch e =
          .tokenRefreshError "Failed to get access token" (some e)) ∧
      (∀ err : SkError, (getAccessToken userManager options).1 = .error err →
        err.isNotAuthenticated = true ∨ err.isTokenRefresh = true) := by
  have hcatch : ∀ e : SkError, (getAccessTokenCatch e).isNotAuthenticated = true ∨
      (getAccessTokenCatch e).isTokenRefresh = true := by
    intro e
    by_cases he : e.isNotAuthenticated = true
    · left
      simp [getAccessTokenCatch, he]
    · right
      simp [getAccessTokenCatch, he, SkError.isTokenRefresh]
  refine ⟨?_, ?_, ?_, ?_⟩
  · intro h
    simp [getAccessToken, h, getAccessTokenCatch, SkError.isNotAuthenticated]
  · intro e he
    simp [getAccessTokenCatch, he]
  · intro e he
    simp [getAccessTokenCatch, he]
  · intro err
    match userManager with
    | none =>
        intro h
        simp only [getAccessToken] at h
        rw [Except.error.injEq] at h
        subst h
        left
        rfl
    | some um' =>
      cases hg : um'.getUserResult with
      | error e =>
          intro h
          simp only [getAccessToken, hg] at h
          rw [Except.error.injEq] at h
          subst h
          exact hcatch e
      | ok ou =>
        cases ou with
        | none =>
            intro h
            simp only [getAccessToken, hg] at h
            rw [Except.error.injEq] at h
            subst h
            exact hcatch _
        | some oidcUser =>
          by_cases hcond : (options.forceRefresh.getD false || oidcUser.expired) = true
          · cases hs : um'.signinSilentResult with
            | error e =>
                intro h
                simp only [getAccessToken, hg, hcond, if_true, hs] at h
                rw [Except.error.injEq] at h
                subst h
                exact hcatch e
            | ok ou2 =>
              cases ou2 with
              | none =>
                  intro h
                  simp only [getAccessToken, hg, hcond, if_true, hs] at h
                  rw [Except.error.injEq] at h
                  subst h
                  exact hcatch _
              | some renewed =>
                  intro h
                  simp [getAccessToken, hg, hcond, hs] at h
          · intro h
            simp [getAccessToken, hg, hcond] at h

/-- Witness for C3: a concrete oracle with no persisted session. -/
theorem getAccessToken_error_taxonomy_witness :
    oracleNoSession.getUserResult = .ok none ∧
      getAccessToken (some oracleNoSession) {} =
        (.error (.notAuthenticatedError "User is not authenticated"), false) :=
  ⟨rfl,
    (getAccessToken_error_taxonomy (some oracleNoSession) {} oracleNoSession).1 rfl⟩

/-- C5 (counterexample): handleRedirectCallback invoked with no protocol
engine throws a CallbackError but dispatches nothing, so the state is
not set to Errored (its error field stays null). -/
theorem handleRedirectCallback_no_engine_counterexample :
    (handleRedirectCallback none initialAuthState).result =
        .error (.callbackError "UserManager not initialized" none) ∧
      (handleRedirectCallback none initialAuthState).state.error = none ∧
      (handleRedirectCallback none initialAuthState).dispatched = [] :=
  ⟨rfl, rfl, rfl⟩

/-- C5 (amended): a failure of the token exchange sets the state to
Errored carrying a CallbackError that wraps the cause and rethrows that
same CallbackError; a call with no engine throws a CallbackError without
dispatching any state change. -/
theorem handleRedirectCallback_failure_behavior (um : UserManagerOracle)
    (st : AuthState) (e : SkError)
    (hfail : um.signinRedirectCallbackResult = .error e) :
    (handleRedirectCallback (some um) st).result =
        .error (.callbackError "Failed to process authentication callback" (some e)) ∧
      (handleRedirectCallback (some um) st).state =
        { isLoading := false, isAuthenticated := false, user := none
          error := some (.callbackError "Failed to process authentication callback" (some e)) } ∧
      (handleRedirectCallback none st).result =
        .error (.callbackError "UserManager not initialized" none) ∧
      (handleRedirectCallback none st).dispatched = [] ∧
      (handleRedirectCallback none st).state = st := by
  refine ⟨?_, ?_, rfl, rfl, rfl⟩ <;> simp [handleRedirectCallback, hfail, dispatch]

/-- Witness for C5: the amended behavior at a concrete oracle whose
exchange fails with an engine-level error. -/
theorem handleRedirectCallback_failure_behavior_witness :
    oracleNoSession.signinRedirectCallbackResult = .error (.jsError "invalid_grant") ∧
      (handleRedirectCallback (some oracleNoSession) initialAuthState).result =
        .error (.callbackError "Failed to process authentication callback"
          (some (.jsError "invalid_grant"))) :=
  ⟨rfl,
    (handleRedirectCallback_failure_behavior oracleNoSession initialAuthState
      (.jsError "invalid_grant") rfl).1⟩

/-- C9 (counterexample): the Event Bridge's access-token-expired handler
— a different notification than user-unloaded — also dispatches
LOGOUT_COMPLETED, so that transition is not produced only by the
user-unloaded handler. -/
theorem logout_logoutCompleted_counterexample :
    (eventBridgeDispatch .accessTokenExpired).1 = .logoutCompleted ∧
      EngineNotice.accessTokenExpired ≠ EngineNotice.userUnloaded :=
  ⟨rfl, fun h => EngineNotice.noConfusion h⟩

/-- C9 (amended): a successful logout dispatches no action (leaving the
held state unchanged); no logout call ever dispatches LOGOUT_COMPLETED;
and the Event Bridge dispatches LOGOUT_COMPLETED exactly for the
user-unloaded and access-token-expired notifications. -/
theorem logout_no_dispatch_on_success
    (userManager : Option UserManagerOracle) (options : LogoutOptions)
    (um : UserManagerOracle) :
    (um.signoutRedirectResult = .ok () → logout (some um) options = ([], .ok ())) ∧
      (∀ a ∈ (logout userManager options).1, a ≠ AuthAction.logoutCompleted) ∧
      (∀ n : EngineNotice, (eventBridgeDispatch n).1 = .logoutCompleted ↔
        (n = .userUnloaded ∨ n = .accessTokenExpired)) := by
  refine ⟨?_, ?_, ?_⟩
  · intro h
    simp [logout, h]
  · match userManager with
    | none =>
        intro a ha
        simp [logout] at ha
    | some um' =>
      cases hs : um'.signoutRedirectResult with
      | ok u =>
          intro a ha
          simp [logout, hs] at ha
      | error e =>
          intro a ha
          simp only [logout, hs, List.mem_singleton] at ha
          subst ha
          exact fun hc => AuthAction.noConfusion hc
  · intro n
    cases n <;> simp [eventBridgeDispatch]

/-- Witness for C9: the amended behavior at a concrete oracle whose
signout call succeeds. -/
theorem logout_no_dispatch_on_success_witness :
    oracleWithSession.signoutRedirectResult = .ok () ∧
      logout (some oracleWithSession) {} = ([], .ok ()) :=
  ⟨rfl,
    (logout_no_dispatch_on_success (some oracleWithSession) {} oracleWithSession).1 rfl⟩

/-- C2 (counterexample): constructing with a missing clientId does not
fail the construction call — it returns the instance (`.ok`); the
Configuration error appears only as the rejection of the internal,
unawaited `initialize()` promise, with no engine created, no network
call, no dispatch and no callback invoked. -/
theorem createScalekitAuth_missing_clientId_counterexample :
    createScalekitAuth missingClientIdOptions sampleEnv =
      .ok { state := initialAuthState
            userManagerSet := false
            effects := []
            outcome := .error (.configurationError "clientId is required" none) } := rfl

/-- C2 (amended): with clientId missing (and the earlier-validated
environmentUrl present) the construction call still returns the
instance; the validation failure rejects the internal initialize()
promise with a Configuration error before any engine is created or any
network call, dispatch or callback runs. -/
theorem createScalekitAuth_missing_clientId (options : ScalekitAuthPluginOptions)
    (env : InitEnv) (henv : options.environmentUrl.isEmpty = false)
    (hmissing : options.clientId = "") :
    createScalekitAuth options env =
      .ok { state := initialAuthState
            userManagerSet := false
            effects := []
            outcome := .error (.configurationError "clientId is required" none) } := by
  have hempty : "".isEmpty = true := rfl
  simp [createScalekitAuth, initAuth, createUserManager, validateConfig, henv, hmissing,
    hempty]

/-- Witness for C2: the amended behavior at the concrete options with a
missing clientId. -/
theorem createScalekitAuth_missing_clientId_witness :
    missingClientIdOptions.environmentUrl.isEmpty = false ∧
      missingClientIdOptions.clientId = "" ∧
      createScalekitAuth missingClientIdOptions sampleEnv =
        .ok { state := initialAuthState
              userManagerSet := false
              effects := []
              outcome := .error (.configurationError "clientId is required" none) } :=
  ⟨rfl, rfl, createScalekitAuth_missing_clientId missingClientIdOptions sampleEnv rfl rfl⟩

end ScalekitVue
